import Mathlib

/-!
# book-manager: the authentication controller

A shallow embedding of `controllers/AuthController.js` (register, login, verifyConfirm,
resendConfirmOtp) together with `models/UserModel.js`, the Mongoose schema every User document
goes through.  Each handler is a pure function from the environment (configuration, library
functions, outcome of external calls), the contents of the `users` collection and the request to
an `Outcome`: the response sent (if any), the collection afterwards and the external calls made.
Queries always return; a write is accepted or rejected as the environment says.
-/

namespace BookManager

/-! ## JavaScript values -/

/-- A MongoDB ObjectId, identified by its hexadecimal string. -/
structure ObjectId where
  hex : String
  deriving DecidableEq, Repr

/-- JavaScript values that occur in object literals, token payloads and response data. -/
inductive JSVal where
  | undefined
  | null
  | str (s : String)
  | num (n : Int)
  | oid (o : ObjectId)
  deriving DecidableEq, Repr

/-- An object literal: its own properties in insertion order. -/
abbrev Obj := List (String × JSVal)

/-- Value held by a path of a User document: `UserSchema` declares only String and ObjectId
paths. -/
inductive PathVal where
  | str (s : String)
  | oid (o : ObjectId)
  deriving DecidableEq, Repr

/-- JavaScript truthiness of what a property read on a document yields (`none` is undefined):
used by `if (user)`-style tests, `!user.isConfirmed` and `user.company_id ? … : 0`. -/
def truthy : Option PathVal → Bool
  | none => false
  | some (.str s) => s != ""
  | some (.oid _) => true

/-- The comparison `v == s` of a property read `v` with a string `s`: undefined equals no
string, a string is compared as is, an ObjectId through its string form. -/
def looseEqStr : Option PathVal → String → Bool
  | none, _ => false
  | some (.str t), s => t == s
  | some (.oid o), s => o.hex == s

/-- A property read placed into an object literal. -/
def toJS : Option PathVal → JSVal
  | none => .undefined
  | some (.str s) => .str s
  | some (.oid o) => .oid o

/-! ## models/UserModel.js -/

/-- The two schema types `UserSchema` uses. -/
inductive SchemaType where
  | string
  | objectId
  deriving DecidableEq, Repr

/-- One path declaration of a Mongoose schema: `name: { type, required, default }`. -/
structure SchemaPath where
  name : String
  type : SchemaType
  required : Bool
  default : Option JSVal
  deriving Repr

/-- `UserSchema` of models/UserModel.js, path by path. -/
def UserSchema : List SchemaPath :=
  [ { name := "phone", type := .string, required := true, default := none },
    { name := "city", type := .string, required := false, default := none },
    { name := "email", type := .string, required := false, default := none },
    { name := "firebase_token", type := .string, required := false, default := none },
    { name := "branch_id", type := .objectId, required := false, default := none },
    { name := "company_id", type := .objectId, required := false, default := none },
    { name := "address_id", type := .objectId, required := false, default := none },
    { name := "profile_pic", type := .string, required := false, default := some (.num 0) },
    { name := "business_name", type := .string, required := false, default := none },
    { name := "full_name", type := .string, required := false, default := none },
    { name := "status", type := .string, required := false, default := some (.num 1) } ]

/-- The declaration of path `name` in `UserSchema`, if it is one. -/
def UserSchema.path (name : String) : Option SchemaPath :=
  UserSchema.find? (fun p => p.name == name)

/-- The declaration of `phone`, the one required path of `UserSchema`. -/
def phonePath : SchemaPath :=
  { name := "phone", type := .string, required := true, default := none }

/-- Mongoose casting of a value to a schema type.  The outer `none` is a CastError, `some none`
leaves the path unset (undefined or null).  A String path takes a string as is, a number by its
decimal form and an ObjectId by its string form.  An ObjectId path takes an ObjectId; the
controller passes nothing else to one, and a string or number there is a CastError in this
embedding. -/
def castValue : SchemaType → JSVal → Option (Option PathVal)
  | _, .undefined => some none
  | _, .null => some none
  | .string, .str s => some (some (.str s))
  | .string, .num n => some (some (.str (toString n)))
  | .string, .oid o => some (some (.str o.hex))
  | .objectId, .oid o => some (some (.oid o))
  | .objectId, .str _ => none
  | .objectId, .num _ => none

/-- A stored User document: its `_id` and the values of its fields.  The `createdAt` and
`updatedAt` stamps that the `timestamps` option maintains are not represented; the controller
never reads them. -/
structure User where
  _id : ObjectId
  fields : List (String × PathVal)
  deriving DecidableEq, Repr

/-- Reading property `name` of a hydrated document (`user.name`).  Mongoose defines a getter for
`_id` and for every path of the schema and for nothing else: a name that is not a path of
`UserSchema` reads as undefined whatever the stored document holds. -/
def User.get (u : User) (name : String) : Option PathVal :=
  if name == "_id" then some (.oid u._id)
  else match UserSchema.path name with
    | some _ => u.fields.lookup name
    | none => none

/-- Store `val` under `name` (unset it when `val` is `none`). -/
def User.setField (u : User) (name : String) (val : Option PathVal) : User :=
  match val with
  | none => { u with fields := u.fields.filter (fun kv => kv.1 != name) }
  | some v => { u with fields := u.fields.filter (fun kv => kv.1 != name) ++ [(name, v)] }

/-- A document instance in memory: the document, whether it was constructed by `new UserModel`
and not saved yet, the paths modified since it was loaded, and the paths whose value failed to
cast. -/
structure Document where
  doc : User
  isNew : Bool
  modified : List String
  castErrors : List String
  deriving DecidableEq, Repr

/-- The value `new UserModel(obj)` gives path `p`: the cast of the property of `obj` of that
name, or of the default of the path when `obj` has no such property (or an undefined one). -/
def initialValue (obj : Obj) (p : SchemaPath) : Option (Option PathVal) :=
  match obj.lookup p.name with
  | some .undefined | none =>
    match p.default with
    | some d => castValue p.type d
    | none => some none
  | some v => castValue p.type v

/-- The fields `new UserModel(obj)` sets, over the paths `ps`. -/
def initialFields (obj : Obj) : List SchemaPath → List (String × PathVal)
  | [] => []
  | p :: ps =>
    match initialValue obj p with
    | some (some v) => (p.name, v) :: initialFields obj ps
    | _ => initialFields obj ps

/-- The paths among `ps` for which `new UserModel(obj)` meets a CastError. -/
def initialCastErrors (obj : Obj) : List SchemaPath → List String
  | [] => []
  | p :: ps =>
    match initialValue obj p with
    | none => p.name :: initialCastErrors obj ps
    | some _ => initialCastErrors obj ps

/-- `new UserModel(obj)`, with `_id` the ObjectId generated for the document.  The schema is
strict (the Mongoose default, UserModel.js sets no `strict` option): properties of `obj` that are
not paths of `UserSchema` are dropped. -/
def UserModel.new (_id : ObjectId) (obj : Obj) : Document :=
  { doc := { _id := _id, fields := initialFields obj UserSchema },
    isNew := true,
    modified := [],
    castErrors := initialCastErrors obj UserSchema }

/-- The assignment `user.name = v` on a document instance.  For a path of the schema the value
is cast and the path marked modified; for any other name the assignment creates a plain
JavaScript property that Mongoose never persists, so the document is unchanged. -/
def Document.set (d : Document) (name : String) (v : JSVal) : Document :=
  match UserSchema.path name with
  | none => d
  | some p =>
    match castValue p.type v with
    | none => { d with castErrors := d.castErrors ++ [name] }
    | some val =>
      { d with doc := d.doc.setField name val, modified := d.modified ++ [name] }

/-- Errors the controller hands to `apiResponse.ErrorResponse`. -/
inductive Err where
  /-- A string passed as the error. -/
  | message (s : String)
  /-- Mongoose ValidationError raised by `save`, with the failing paths. -/
  | validation (paths : List String)
  /-- The store rejected a write. -/
  | storeWrite
  /-- The rejection of `mailer.send`. -/
  | mailer
  deriving DecidableEq, Repr

/-- The `required` validator: a String path needs a non-empty string, an ObjectId path a
value. -/
def requiredOk (u : User) (p : SchemaPath) : Bool :=
  match p.type, u.get p.name with
  | .string, some (.str s) => s != ""
  | .objectId, some _ => true
  | _, _ => false

/-- Validation run by `save`: the paths that failed to cast, then the required paths without a
value. -/
def Document.validate (d : Document) : List String :=
  d.castErrors ++
    (UserSchema.filter (fun p => p.required && !requiredOk d.doc p)).map (fun p => p.name)

/-- Apply `f` to the first document satisfying `p`. -/
def modifyFirst (p : User → Bool) (f : User → User) : List User → List User
  | [] => []
  | u :: us => if p u then f u :: us else u :: modifyFirst p f us

/-- `user.save(callback)`: the error passed to the callback (if any) and the collection
afterwards.  Validation runs first; a new document is then inserted, a loaded document has its
modified paths written back, and a loaded document without modified paths needs no write.
`writeOk` tells whether the store accepts the write. -/
def Document.save (writeOk : Bool) (store : List User) (d : Document) :
    Option Err × List User :=
  match d.validate with
  | p :: ps => (some (.validation (p :: ps)), store)
  | [] =>
    if d.isNew then
      if writeOk then (none, store ++ [d.doc]) else (some .storeWrite, store)
    else if d.modified.isEmpty then (none, store)
    else if writeOk then
      (none, modifyFirst (fun u => u._id == d.doc._id)
        (fun u => d.modified.foldl (fun acc name => acc.setField name (d.doc.get name)) u) store)
    else (some .storeWrite, store)

/-- `UserModel.findOne({ [path]: value })` for a String path: the first document whose path
holds that string, hydrated. -/
def UserModel.findOne (store : List User) (path : String) (value : String) : Option Document :=
  match store.find? (fun u => u.get path == some (.str value)) with
  | some u => some { doc := u, isNew := false, modified := [], castErrors := [] }
  | none => none

/-- The part of an update object that the strict schema keeps, cast: `none` on a CastError. -/
def castUpdate : Obj → Option (List (String × Option PathVal))
  | [] => some []
  | (k, v) :: rest =>
    match UserSchema.path k with
    | none => castUpdate rest
    | some p =>
      match castValue p.type v, castUpdate rest with
      | some val, some more => some ((k, val) :: more)
      | _, _ => none

/-- `UserModel.findOneAndUpdate({ [path]: value }, update)`: sets the properties of `update`
that are paths of the schema on the first matching document. -/
def UserModel.findOneAndUpdate (store : List User) (path : String) (value : String)
    (update : Obj) : List User :=
  match castUpdate update with
  | none => store
  | some sets =>
    modifyFirst (fun u => u.get path == some (.str value))
      (fun u => sets.foldl (fun acc kv => acc.setField kv.1 kv.2) u) store

/-! ## Collaborators of the controller -/

/-- Modelled from the spec: models/CompanyModel.js is not among the sources.  A Company has a
generated id, a `unique_id` (its join code) and a status (spec §3). -/
structure Company where
  _id : ObjectId
  unique_id : String
  status : String
  deriving DecidableEq, Repr

/-- `CompanyModel.findOne({ unique_id: value })`: the first company with that join code. -/
def CompanyModel.findOne (companies : List Company) (value : String) : Option Company :=
  companies.find? (fun c => c.unique_id == value)

/-- An entry of `validationResult(req).array()`: the field and the message (spec §6). -/
structure ValidationError where
  param : String
  msg : String
  deriving DecidableEq, Repr

/-- Modelled from the spec: helpers/apiResponse.js is not among the sources.  One constructor for
each helper the controller calls, carrying the arguments of the call; by spec §6 these are the
success, validation-error, unauthorized and internal-error envelopes. -/
inductive Response where
  | successResponse (msg : String)
  | successResponseWithData (msg : String) (data : Obj)
  | ErrorResponse (err : Err)
  | validationErrorWithData (msg : String) (data : List ValidationError)
  | unauthorizedResponse (msg : String)
  deriving DecidableEq, Repr

/-- External calls a handler makes, in order. -/
inductive Effect where
  /-- The call `mailer.send(sender, recipient, subject, html)`. -/
  | mailerSend (sender recipient subject html : String)
  /-- The call `user.save(…)` on this document. -/
  | save (doc : User)
  /-- The call `jwt.sign(payload, secret)` or `jwt.sign(payload, secret, options)`;
  `options` is `none` when the call has two arguments. -/
  | jwtSign (payload : Obj) (secret : String) (options : Option Obj)
  /-- The call `UserModel.findOneAndUpdate(query, update)`. -/
  | findOneAndUpdate (query : Obj) (update : Obj)
  deriving DecidableEq, Repr

/-- Everything a handler takes from outside the request and the store: library functions,
configuration, and how the external calls of this run turn out. -/
structure Env where
  /-- The `escape` sanitizer of express-validator, applied by `sanitizeBody(…).escape()`. -/
  escape : String → String
  /-- The hash `bcrypt.hash(password, rounds, …)` passes to its callback. -/
  bcryptHash : String → Nat → String
  /-- The number `utility.randomNumber(n)` draws in this run (helpers/utility.js is not among
  the sources; by spec §4.1 it is a numeric code of `n` digits). -/
  randomNumber : Nat → Nat
  /-- Whether the promise of `mailer.send(sender, recipient, subject, html)` resolves. -/
  mailerSend : String → String → String → String → Bool
  /-- The constant `constants.confirmEmails.from` (helpers/constants.js is not among the
  sources). -/
  confirmEmailsFrom : String
  /-- The variable `process.env.JWT_SECRET`, taken as set (`jwt.sign` throws without a
  secret). -/
  JWT_SECRET : String
  /-- The variable `process.env.JWT_TIMEOUT_DURATION`. -/
  JWT_TIMEOUT_DURATION : String
  /-- The token `jwt.sign` returns for a payload, a secret and the options (if passed). -/
  jwtSign : Obj → String → Option Obj → String
  /-- The ObjectId generated for a document constructed during this request. -/
  newObjectId : ObjectId
  /-- Whether the store accepts the writes of this request. -/
  writeOk : Bool

/-- What handling one request amounts to: the response sent (`none` when the handler sends
none), the `users` collection afterwards, and the external calls made. -/
structure Outcome where
  response : Option Response
  store : List User
  trace : List Effect
  deriving DecidableEq, Repr

/-! ## controllers/AuthController.js -/

/-- The html body of the confirmation mail (lines 86-89 and 361-364):
`"<p>Please Confirm your Account.</p><p>OTP: " + otp + "</p>"`. -/
def confirmHtml (otp : Nat) : String :=
  "<p>Please Confirm your Account.</p><p>OTP: " ++ toString otp ++ "</p>"

/-- A register request as the validation chains leave it: the field values, and the errors the
format rules of each chain reported (length, alphanumeric, e-mail syntax: library rules). -/
structure RegisterRequest where
  firstName : String
  lastName : String
  email : String
  password : String
  firstNameErrors : List ValidationError
  lastNameErrors : List ValidationError
  emailErrors : List ValidationError
  passwordErrors : List ValidationError
  deriving DecidableEq, Repr

/-- The custom rule of the `email` chain (lines 44-50): rejects with "E-mail already in use"
when a User with that email exists. -/
def register.emailInUse (store : List User) (value : String) : List ValidationError :=
  match UserModel.findOne store "email" value with
  | some _ => [{ param := "email", msg := "E-mail already in use" }]
  | none => []

/-- The errors `validationResult(req)` holds for a register request, chain by chain. -/
def register.validationResult (store : List User) (req : RegisterRequest) :
    List ValidationError :=
  req.firstNameErrors ++ req.lastNameErrors ++
    (req.emailErrors ++ register.emailInUse store req.email) ++ req.passwordErrors

/-- The document register constructs (lines 78-84): `new UserModel({ firstName, lastName, email,
password: hash, confirmOTP: otp })`. -/
def register.newUser (env : Env) (firstName lastName email hash : String) (otp : Nat) :
    Document :=
  UserModel.new env.newObjectId
    [("firstName", .str firstName), ("lastName", .str lastName), ("email", .str email),
     ("password", .str hash), ("confirmOTP", .num otp)]

/-- The handler `exports.register` (lines 56-127). -/
def register (env : Env) (store : List User) (req : RegisterRequest) : Outcome :=
  -- sanitizeBody(...).escape()
  let firstName := env.escape req.firstName
  let lastName := env.escape req.lastName
  let email := env.escape req.email
  let password := env.escape req.password
  let errors := register.validationResult store req
  if !errors.isEmpty then
    { response := some (.validationErrorWithData "Validation Error." errors),
      store := store, trace := [] }
  else
    let hash := env.bcryptHash password 10
    let otp := env.randomNumber 4
    let user := register.newUser env firstName lastName email hash otp
    let html := confirmHtml otp
    let mail := Effect.mailerSend env.confirmEmailsFrom email "Confirm Account" html
    if env.mailerSend env.confirmEmailsFrom email "Confirm Account" html then
      match user.save env.writeOk store with
      | (some err, store1) =>
        { response := some (.ErrorResponse err), store := store1,
          trace := [mail, .save user.doc] }
      | (none, store1) =>
        let userData : Obj :=
          [("_id", toJS (user.doc.get "_id")), ("firstName", toJS (user.doc.get "firstName")),
           ("lastName", toJS (user.doc.get "lastName")), ("email", toJS (user.doc.get "email"))]
        { response := some (.successResponseWithData "Registration Success." userData),
          store := store1, trace := [mail, .save user.doc] }
    else
      { response := some (.ErrorResponse .mailer), store := store, trace := [mail] }

/-- A login request as the validation chains leave it: the field values and the errors of
`validationResult(req)`. -/
structure LoginRequest where
  phone : String
  unique_id : String
  errors : List ValidationError
  deriving DecidableEq, Repr

/-- The document login constructs for an unknown phone (lines 199-203):
`new UserModel({ phone: req.body.phone, status: "active", company_id: company._id })`. -/
def login.newUser (env : Env) (phone : String) (company : Company) : Document :=
  UserModel.new env.newObjectId
    [("phone", .str phone), ("status", .str "active"), ("company_id", .oid company._id)]

/-- The handler `exports.login` (lines 153-250). -/
def login (env : Env) (store : List User) (companies : List Company) (req : LoginRequest) :
    Outcome :=
  -- sanitizeBody("phone").escape()
  let phone := env.escape req.phone
  if !req.errors.isEmpty then
    { response := some (.validationErrorWithData "Validation Error." req.errors),
      store := store, trace := [] }
  else
    match UserModel.findOne store "phone" phone with
    | some user =>
      if looseEqStr (user.doc.get "status") "active" then
        let userData : Obj :=
          [("_id", toJS (user.doc.get "_id")),
           ("company_id",
             if truthy (user.doc.get "company_id") then toJS (user.doc.get "company_id")
             else .num 0),
           ("phone", toJS (user.doc.get "phone"))]
        let jwtPayload := userData
        let _jwtData : Obj := [("expiresIn", .str env.JWT_TIMEOUT_DURATION)]
        let secret := env.JWT_SECRET
        -- jwt.sign(jwtPayload, secret): jwtData is not among the arguments
        let token := env.jwtSign jwtPayload secret none
        { response := some (.successResponseWithData "Login Success."
            (userData ++ [("token", .str token)])),
          store := store, trace := [.jwtSign jwtPayload secret none] }
      else
        { response := some (.unauthorizedResponse "Account is not active. Please contact admin."),
          store := store, trace := [] }
    | none =>
      match CompanyModel.findOne companies req.unique_id with
      | some company =>
        let user := login.newUser env phone company
        match user.save env.writeOk store with
        | (some err, store1) =>
          { response := some (.ErrorResponse err), store := store1, trace := [.save user.doc] }
        | (none, store1) =>
          let userData : Obj :=
            [("_id", toJS (user.doc.get "_id")), ("phone", toJS (user.doc.get "phone")),
             ("status", toJS (user.doc.get "status"))]
          let jwtPayload := userData
          let _jwtData : Obj := [("expiresIn", .str env.JWT_TIMEOUT_DURATION)]
          let secret := env.JWT_SECRET
          -- jwt.sign(jwtPayload, secret): jwtData is not among the arguments
          let token := env.jwtSign jwtPayload secret none
          { response := some (.successResponseWithData "Registration Success."
              (userData ++ [("token", .str token)])),
            store := store1, trace := [.save user.doc, .jwtSign jwtPayload secret none] }
      | none =>
        { response := some (.ErrorResponse
            (.message "Company is not active. Please contact admin.")),
          store := store, trace := [] }

/-- A verifyConfirm request as the validation chains leave it. -/
structure VerifyConfirmRequest where
  email : String
  otp : String
  errors : List ValidationError
  deriving DecidableEq, Repr

/-- The handler `exports.verifyConfirm` (lines 272-325).  The update is issued without waiting
for it: the success response is sent whether or not the store accepts the write. -/
def verifyConfirm (env : Env) (store : List User) (req : VerifyConfirmRequest) : Outcome :=
  -- sanitizeBody(...).escape()
  let email := env.escape req.email
  let otp := env.escape req.otp
  if !req.errors.isEmpty then
    { response := some (.validationErrorWithData "Validation Error." req.errors),
      store := store, trace := [] }
  else
    match UserModel.findOne store "email" email with
    | some user =>
      if !truthy (user.doc.get "isConfirmed") then
        if looseEqStr (user.doc.get "confirmOTP") otp then
          let update : Obj := [("isConfirmed", .num 1), ("confirmOTP", .null)]
          { response := some (.successResponse "Account confirmed success."),
            store :=
              if env.writeOk then UserModel.findOneAndUpdate store "email" email update
              else store,
            trace := [.findOneAndUpdate [("email", .str email)] update] }
        else
          { response := some (.unauthorizedResponse "Otp does not match"),
            store := store, trace := [] }
      else
        { response := some (.unauthorizedResponse "Account already confirmed."),
          store := store, trace := [] }
    | none =>
      { response := some (.unauthorizedResponse "Specified email not found."),
        store := store, trace := [] }

/-- A resendConfirmOtp request as the validation chains leave it. -/
structure ResendConfirmOtpRequest where
  email : String
  errors : List ValidationError
  deriving DecidableEq, Repr

/-- The handler `exports.resendConfirmOtp` (lines 342-408).  The promise of `mailer.send` has no
rejection handler: when the dispatch fails no response is sent. -/
def resendConfirmOtp (env : Env) (store : List User) (req : ResendConfirmOtpRequest) :
    Outcome :=
  -- sanitizeBody("email").escape()
  let email := env.escape req.email
  if !req.errors.isEmpty then
    { response := some (.validationErrorWithData "Validation Error." req.errors),
      store := store, trace := [] }
  else
    match UserModel.findOne store "email" email with
    | some user =>
      if !truthy (user.doc.get "isConfirmed") then
        let otp := env.randomNumber 4
        let html := confirmHtml otp
        let mail := Effect.mailerSend env.confirmEmailsFrom email "Confirm Account" html
        if env.mailerSend env.confirmEmailsFrom email "Confirm Account" html then
          let user1 := user.set "isConfirmed" (.num 0)
          let user2 := user1.set "confirmOTP" (.num otp)
          match user2.save env.writeOk store with
          | (some err, store1) =>
            { response := some (.ErrorResponse err), store := store1,
              trace := [mail, .save user2.doc] }
          | (none, store1) =>
            { response := some (.successResponse "Confirm otp sent."), store := store1,
              trace := [mail, .save user2.doc] }
        else
          { response := none, store := store, trace := [mail] }
      else
        { response := some (.unauthorizedResponse "Account already confirmed."),
          store := store, trace := [] }
    | none =>
      { response := some (.unauthorizedResponse "Specified email not found."),
        store := store, trace := [] }

/-! ## Sample data -/

/-- An environment for the examples: every external call succeeds, and `escape` is the identity
(the sample strings hold none of the characters it rewrites). -/
def sampleEnv : Env :=
  { escape := fun s => s,
    bcryptHash := fun _ _ => "$2a$10$CwTycUXWue0Thq9StjUM0u",
    randomNumber := fun _ => 4821,
    mailerSend := fun _ _ _ _ => true,
    confirmEmailsFrom := "admin@example.com",
    JWT_SECRET := "s3cret",
    JWT_TIMEOUT_DURATION := "2 hours",
    jwtSign := fun _ secret _ => "signed-with-" ++ secret,
    newObjectId := ⟨"650000000000000000000001"⟩,
    writeOk := true }

/-- The sample environment with the mail transport down. -/
def sampleEnvMailDown : Env :=
  { sampleEnv with mailerSend := fun _ _ _ _ => false }

/-- A company with join code "ACME". -/
def acme : Company :=
  { _id := ⟨"63000000000000000000000c"⟩, unique_id := "ACME", status := "active" }

/-- An active user of `acme`, as Login provisions one. -/
def asha : User :=
  { _id := ⟨"64000000000000000000000a"⟩,
    fields := [("phone", .str "9876543210"), ("company_id", .oid ⟨"63000000000000000000000c"⟩),
      ("profile_pic", .str "0"), ("status", .str "active")] }

/-- A user constructed without a status, which therefore holds the default of the schema. -/
def ravi : User :=
  (UserModel.new ⟨"64000000000000000000000b"⟩
    [("phone", .str "9123456780"), ("email", .str "ravi@x.com")]).doc

/-- A stored document that carries a `confirmOTP` value beside its schema paths. -/
def janePending : User :=
  { _id := ⟨"64000000000000000000000d"⟩,
    fields := [("phone", .str "9000000001"), ("email", .str "jane@x.com"),
      ("confirmOTP", .str "4821"), ("status", .str "1")] }

/-- The registration of the example scenario of the spec (§8). -/
def janeRegistration : RegisterRequest :=
  { firstName := "Jane", lastName := "Doe", email := "jane@x.com", password := "secret1",
    firstNameErrors := [], lastNameErrors := [], emailErrors := [], passwordErrors := [] }

/-! ## Properties of the model layer -/

/-- A lookup that succeeds returns a stored document holding the value looked up, hydrated as a
loaded, unmodified document. -/
theorem findOne_some {store : List User} {path value : String} {d : Document}
    (h : UserModel.findOne store path value = some d) :
    d.doc ∈ store ∧ d.doc.get path = some (.str value) ∧
      d = { doc := d.doc, isNew := false, modified := [], castErrors := [] } := by
  unfold UserModel.findOne at h
  split at h
  · next u hu =>
    injection h with h
    subst h
    refine ⟨List.mem_of_find?_eq_some hu, ?_, rfl⟩
    have := List.find?_some hu
    simpa using this
  · exact absurd h (by simp)

/-- Only `phone` can fail the `required` validator. -/
theorem required_filter (u : User) :
    (UserSchema.filter (fun p => p.required && !requiredOk u p)).map (fun p => p.name) =
      if requiredOk u phonePath then [] else ["phone"] := by
  cases h : requiredOk u phonePath
  · have : UserSchema.filter (fun p => p.required && !requiredOk u p) = [phonePath] := by
      simp only [UserSchema, List.filter_cons]
      simp [phonePath] at h
      simp [h, phonePath]
    simp [this, phonePath]
  · have : UserSchema.filter (fun p => p.required && !requiredOk u p) = [] := by
      simp only [UserSchema, List.filter_cons]
      simp [phonePath] at h
      simp [h]
    simp [this]

/-- The fields of the document login constructs. -/
theorem login_newUser_fields (env : Env) (phone : String) (company : Company) :
    (login.newUser env phone company).doc =
      { _id := env.newObjectId,
        fields := [("phone", .str phone), ("company_id", .oid company._id),
          ("profile_pic", .str "0"), ("status", .str "active")] } := rfl

/-- Saving the document login constructs: it fails validation exactly when the phone is the
empty string, and otherwise appends the document when the store accepts the write. -/
theorem login_newUser_save (env : Env) (store : List User) (phone : String)
    (company : Company) :
    (login.newUser env phone company).save env.writeOk store =
      if phone = "" then (some (.validation ["phone"]), store)
      else if env.writeOk then (none, store ++ [(login.newUser env phone company).doc])
      else (some .storeWrite, store) := by
  have hc : (login.newUser env phone company).castErrors = [] := rfl
  have hn : (login.newUser env phone company).isNew = true := rfl
  have hr : requiredOk (login.newUser env phone company).doc phonePath = (phone != "") := rfl
  have hv : (login.newUser env phone company).validate =
      if phone = "" then ["phone"] else [] := by
    unfold Document.validate
    rw [required_filter, hc, hr]
    by_cases hp : phone = "" <;> simp [hp]
  unfold Document.save
  rw [hv, hn]
  by_cases hp : phone = "" <;> simp [hp]

/-- The outcome of Login in its provisioning branch, when the save succeeds. -/
theorem login_provision_outcome (env : Env) (store : List User) (companies : List Company)
    (req : LoginRequest) (company : Company)
    (hvalid : req.errors = [])
    (hnouser : UserModel.findOne store "phone" (env.escape req.phone) = none)
    (hcompany : CompanyModel.findOne companies req.unique_id = some company)
    (hsave : ((login.newUser env (env.escape req.phone) company).save env.writeOk store).1
      = none) :
    login env store companies req =
      { response := some (.successResponseWithData "Registration Success."
          [("_id", .oid env.newObjectId), ("phone", .str (env.escape req.phone)),
           ("status", .str "active"),
           ("token", .str (env.jwtSign [("_id", .oid env.newObjectId),
              ("phone", .str (env.escape req.phone)), ("status", .str "active")]
              env.JWT_SECRET none))]),
        store := store ++ [(login.newUser env (env.escape req.phone) company).doc],
        trace := [.save (login.newUser env (env.escape req.phone) company).doc,
          .jwtSign [("_id", .oid env.newObjectId), ("phone", .str (env.escape req.phone)),
            ("status", .str "active")] env.JWT_SECRET none] } := by
  have hsave2 : (login.newUser env (env.escape req.phone) company).save env.writeOk store =
      (none, store ++ [(login.newUser env (env.escape req.phone) company).doc]) := by
    rw [login_newUser_save] at hsave ⊢
    by_cases hp : env.escape req.phone = ""
    · simp [hp] at hsave
    · cases hw : env.writeOk
      · simp [hp, hw] at hsave
      · simp [hp]
  simp only [login, hvalid, hnouser, hcompany, hsave2]
  rfl

/-! ## Login -/

/-- C1. A valid Login whose phone lookup returns a User with status "active" answers with the
success response carrying exactly the claims `_id`, `company_id` and `phone` of that very stored
user (`company_id` is 0 when the user has none) and the token signed over exactly those claims;
the collection is unchanged and the only external call is that signature. -/
theorem login_active_user (env : Env) (store : List User) (companies : List Company)
    (req : LoginRequest) (user : Document)
    (hvalid : req.errors = [])
    (hfound : UserModel.findOne store "phone" (env.escape req.phone) = some user)
    (hactive : user.doc.get "status" = some (.str "active")) :
    user.doc ∈ store ∧
    user.doc.get "phone" = some (.str (env.escape req.phone)) ∧
    ∃ company_id : JSVal,
      (∀ c, user.doc.get "company_id" = some (.oid c) → company_id = .oid c) ∧
      (user.doc.get "company_id" = none → company_id = .num 0) ∧
      login env store companies req =
        { response := some (.successResponseWithData "Login Success."
            [("_id", .oid user.doc._id), ("company_id", company_id),
             ("phone", toJS (user.doc.get "phone")),
             ("token", .str (env.jwtSign
                [("_id", .oid user.doc._id), ("company_id", company_id),
                 ("phone", toJS (user.doc.get "phone"))] env.JWT_SECRET none))]),
          store := store,
          trace := [.jwtSign [("_id", .oid user.doc._id), ("company_id", company_id),
            ("phone", toJS (user.doc.get "phone"))] env.JWT_SECRET none] } := by
  obtain ⟨hmem, hphone, -⟩ := findOne_some hfound
  refine ⟨hmem, hphone, if truthy (user.doc.get "company_id") then
    toJS (user.doc.get "company_id") else .num 0, ?_, ?_, ?_⟩
  · intro c hc
    simp [hc, truthy, toJS]
  · intro hc
    simp [hc, truthy]
  · have hid : user.doc.get "_id" = some (.oid user.doc._id) := rfl
    simp [login, hvalid, hfound, hactive, looseEqStr, hid, toJS]

/-- Witness of C1: `asha`, an active user of `acme`, logs in. -/
theorem login_active_user_witness :
    login sampleEnv [ravi, asha] [acme]
        { phone := "9876543210", unique_id := "ACME", errors := [] } =
      { response := some (.successResponseWithData "Login Success."
          [("_id", .oid ⟨"64000000000000000000000a"⟩),
           ("company_id", .oid ⟨"63000000000000000000000c"⟩),
           ("phone", .str "9876543210"),
           ("token", .str "signed-with-s3cret")]),
        store := [ravi, asha],
        trace := [.jwtSign [("_id", .oid ⟨"64000000000000000000000a"⟩),
          ("company_id", .oid ⟨"63000000000000000000000c"⟩),
          ("phone", .str "9876543210")] "s3cret" none] } := by
  obtain ⟨-, -, company_id, hc, -, h⟩ := login_active_user sampleEnv [ravi, asha] [acme]
    { phone := "9876543210", unique_id := "ACME", errors := [] }
    { doc := asha, isNew := false, modified := [], castErrors := [] } rfl rfl rfl
  rw [hc ⟨"63000000000000000000000c"⟩ rfl] at h
  exact h

/-- C2. A valid Login whose phone lookup returns a User whose status does not compare equal to
"active" is answered Unauthorized ("Account is not active. Please contact admin."); no external
call is made (in particular no `jwt.sign`) and the collection is unchanged, whatever the
`unique_id` and the companies. -/
theorem login_inactive_user (env : Env) (store : List User) (companies : List Company)
    (req : LoginRequest) (user : Document)
    (hvalid : req.errors = [])
    (hfound : UserModel.findOne store "phone" (env.escape req.phone) = some user)
    (hinactive : looseEqStr (user.doc.get "status") "active" = false) :
    login env store companies req =
      { response := some (.unauthorizedResponse "Account is not active. Please contact admin."),
        store := store,
        trace := [] } := by
  simp [login, hvalid, hfound, hinactive]

/-- Witness of C2: `ravi` holds the default status of the schema, "1". -/
theorem login_inactive_user_witness :
    ravi.get "status" = some (.str "1") ∧
    login sampleEnv [ravi, asha] [acme]
        { phone := "9123456780", unique_id := "ACME", errors := [] } =
      { response := some (.unauthorizedResponse "Account is not active. Please contact admin."),
        store := [ravi, asha],
        trace := [] } :=
  ⟨rfl, login_inactive_user sampleEnv [ravi, asha] [acme]
    { phone := "9123456780", unique_id := "ACME", errors := [] }
    { doc := ravi, isNew := false, modified := [], castErrors := [] } rfl rfl rfl⟩

/-- C3. A valid Login whose phone matches no User and whose `unique_id` matches a Company, and
whose save succeeds, appends exactly one User to the collection and leaves the others as they
were: the new User has the generated id, the phone of the request, status "active" and the id of
the matched Company as `company_id`; the response is a success carrying a token signed for the
new user (its `_id` and phone are in the payload). -/
theorem login_provisions_user (env : Env) (store : List User) (companies : List Company)
    (req : LoginRequest) (company : Company)
    (hvalid : req.errors = [])
    (hnouser : UserModel.findOne store "phone" (env.escape req.phone) = none)
    (hcompany : CompanyModel.findOne companies req.unique_id = some company)
    (hsave : ((login.newUser env (env.escape req.phone) company).save env.writeOk store).1
      = none) :
    ∃ u : User,
      (login env store companies req).store = store ++ [u] ∧
      u._id = env.newObjectId ∧
      u.get "phone" = some (.str (env.escape req.phone)) ∧
      u.get "status" = some (.str "active") ∧
      u.get "company_id" = some (.oid company._id) ∧
      ∃ payload : Obj,
        payload.lookup "_id" = some (.oid u._id) ∧
        payload.lookup "phone" = some (.str (env.escape req.phone)) ∧
        (login env store companies req).response =
          some (.successResponseWithData "Registration Success."
            (payload ++ [("token", .str (env.jwtSign payload env.JWT_SECRET none))])) ∧
        (login env store companies req).trace =
          [.save u, .jwtSign payload env.JWT_SECRET none] := by
  have hout := login_provision_outcome env store companies req company hvalid hnouser
    hcompany hsave
  refine ⟨(login.newUser env (env.escape req.phone) company).doc, ?_, rfl, rfl, rfl, rfl,
    [("_id", .oid env.newObjectId), ("phone", .str (env.escape req.phone)),
      ("status", .str "active")], rfl, rfl, ?_, ?_⟩
  · rw [hout]
  · rw [hout]; rfl
  · rw [hout]

/-- Witness of C3: an unknown phone logs in with the join code of `acme`. -/
theorem login_provisions_user_witness :
    ∃ u : User,
      (login sampleEnv [ravi] [acme]
        { phone := "9876543210", unique_id := "ACME", errors := [] }).store = [ravi] ++ [u] ∧
      u._id = ⟨"650000000000000000000001"⟩ ∧
      u.get "phone" = some (.str "9876543210") ∧
      u.get "status" = some (.str "active") ∧
      u.get "company_id" = some (.oid ⟨"63000000000000000000000c"⟩) ∧
      ∃ payload : Obj,
        payload.lookup "_id" = some (.oid u._id) ∧
        payload.lookup "phone" = some (.str "9876543210") ∧
        (login sampleEnv [ravi] [acme]
          { phone := "9876543210", unique_id := "ACME", errors := [] }).response =
          some (.successResponseWithData "Registration Success."
            (payload ++ [("token", .str "signed-with-s3cret")])) ∧
        (login sampleEnv [ravi] [acme]
          { phone := "9876543210", unique_id := "ACME", errors := [] }).trace =
          [.save u, .jwtSign payload "s3cret" none] :=
  login_provisions_user sampleEnv [ravi] [acme]
    { phone := "9876543210", unique_id := "ACME", errors := [] } acme rfl rfl rfl rfl

/-- C4. A valid Login whose phone matches no User and whose `unique_id` matches no Company is
answered with the error response "Company is not active. Please contact admin."; no external call
is made (no User is saved, no token signed) and the collection is unchanged. -/
theorem login_unknown_company (env : Env) (store : List User) (companies : List Company)
    (req : LoginRequest)
    (hvalid : req.errors = [])
    (hnouser : UserModel.findOne store "phone" (env.escape req.phone) = none)
    (hnocompany : CompanyModel.findOne companies req.unique_id = none) :
    login env store companies req =
      { response := some (.ErrorResponse
          (.message "Company is not active. Please contact admin.")),
        store := store,
        trace := [] } := by
  simp [login, hvalid, hnouser, hnocompany]

/-- Witness of C4: an unknown phone logs in with a join code no company has. -/
theorem login_unknown_company_witness :
    login sampleEnv [ravi] [acme]
        { phone := "9876543210", unique_id := "INITECH", errors := [] } =
      { response := some (.ErrorResponse
          (.message "Company is not active. Please contact admin.")),
        store := [ravi],
        trace := [] } :=
  login_unknown_company sampleEnv [ravi] [acme]
    { phone := "9876543210", unique_id := "INITECH", errors := [] } rfl rfl rfl

/-! ## Register -/

/-- Saving the document register constructs is rejected by validation: `phone`, the required
path, has no value. -/
theorem register_newUser_save (env : Env) (store : List User)
    (firstName lastName email hash : String) (otp : Nat) :
    (register.newUser env firstName lastName email hash otp).save env.writeOk store =
      (some (.validation ["phone"]), store) := by
  have hv : (register.newUser env firstName lastName email hash otp).validate = ["phone"] :=
    rfl
  unfold Document.save
  rw [hv]

/-- The document register constructs keeps only `email` of the five properties passed to
`new UserModel`, beside the defaults of the schema. -/
theorem register_newUser_fields (env : Env) (firstName lastName email hash : String)
    (otp : Nat) :
    (register.newUser env firstName lastName email hash otp).doc =
      { _id := env.newObjectId,
        fields := [("email", .str email), ("profile_pic", .str "0"), ("status", .str "1")] } :=
  rfl

/-- The three ways Register ends. -/
theorem register_outcome (env : Env) (store : List User) (req : RegisterRequest) :
    register env store req =
      if register.validationResult store req = [] then
        if env.mailerSend env.confirmEmailsFrom (env.escape req.email) "Confirm Account"
            (confirmHtml (env.randomNumber 4)) then
          { response := some (.ErrorResponse (.validation ["phone"])),
            store := store,
            trace := [.mailerSend env.confirmEmailsFrom (env.escape req.email) "Confirm Account"
                (confirmHtml (env.randomNumber 4)),
              .save (register.newUser env (env.escape req.firstName) (env.escape req.lastName)
                (env.escape req.email) (env.bcryptHash (env.escape req.password) 10)
                (env.randomNumber 4)).doc] }
        else
          { response := some (.ErrorResponse .mailer),
            store := store,
            trace := [.mailerSend env.confirmEmailsFrom (env.escape req.email) "Confirm Account"
                (confirmHtml (env.randomNumber 4))] }
      else
        { response := some (.validationErrorWithData "Validation Error."
            (register.validationResult store req)),
          store := store,
          trace := [] } := by
  unfold register
  simp only [register_newUser_save]
  by_cases hv : register.validationResult store req = []
  · by_cases hm : env.mailerSend env.confirmEmailsFrom (env.escape req.email) "Confirm Account"
        (confirmHtml (env.randomNumber 4)) = true
    · simp [hv, hm]
    · simp [hv, hm]
  · simp [hv]

/-- C7. Register's commit is gated.  Mail is dispatched only if validation produced no errors; a
save is attempted, and the collection can change, only if moreover that dispatch succeeded.  When
a User with the submitted email exists the result is the validation error, with no external call
and the collection unchanged; when validation passes and the dispatch fails the result is an
error response, no save is attempted and the collection is unchanged. -/
theorem register_commit_gated (env : Env) (store : List User) (req : RegisterRequest) :
    ((∃ s r subject html, Effect.mailerSend s r subject html ∈ (register env store req).trace) →
      register.validationResult store req = []) ∧
    (((∃ d, Effect.save d ∈ (register env store req).trace) ∨
        (register env store req).store ≠ store) →
      register.validationResult store req = [] ∧
      env.mailerSend env.confirmEmailsFrom (env.escape req.email) "Confirm Account"
        (confirmHtml (env.randomNumber 4)) = true) ∧
    (UserModel.findOne store "email" req.email ≠ none →
      register env store req =
        { response := some (.validationErrorWithData "Validation Error."
            (register.validationResult store req)),
          store := store,
          trace := [] }) ∧
    (register.validationResult store req = [] →
      env.mailerSend env.confirmEmailsFrom (env.escape req.email) "Confirm Account"
        (confirmHtml (env.randomNumber 4)) = false →
      register env store req =
        { response := some (.ErrorResponse .mailer),
          store := store,
          trace := [.mailerSend env.confirmEmailsFrom (env.escape req.email) "Confirm Account"
            (confirmHtml (env.randomNumber 4))] }) := by
  rw [register_outcome]
  refine ⟨?_, ?_, ?_, ?_⟩
  · intro h
    by_contra hv
    simp [hv] at h
  · intro h
    by_cases hv : register.validationResult store req = []
    · refine ⟨hv, ?_⟩
      by_contra hm
      simp [hv, hm] at h
    · simp [hv] at h
  · intro h
    have hv : register.validationResult store req ≠ [] := by
      unfold register.validationResult register.emailInUse
      cases hf : UserModel.findOne store "email" req.email
      · exact absurd hf h
      · simp
    simp [hv]
  · intro hv hm
    simp [hv, hm]

/-- Witness of C7: a registration with the email of `ravi` is a validation error with no
external call, and one with a fresh email while the mail transport is down is an error response
after the one mail call; the collection is unchanged in both. -/
theorem register_commit_gated_witness :
    register sampleEnv [ravi] { janeRegistration with email := "ravi@x.com" } =
      { response := some (.validationErrorWithData "Validation Error."
          [{ param := "email", msg := "E-mail already in use" }]),
        store := [ravi],
        trace := [] } ∧
    register sampleEnvMailDown [ravi] janeRegistration =
      { response := some (.ErrorResponse .mailer),
        store := [ravi],
        trace := [.mailerSend "admin@example.com" "jane@x.com" "Confirm Account"
          "<p>Please Confirm your Account.</p><p>OTP: 4821</p>"] } :=
  ⟨(register_commit_gated sampleEnv [ravi]
      { janeRegistration with email := "ravi@x.com" }).2.2.1 (by decide),
    (register_commit_gated sampleEnvMailDown [ravi] janeRegistration).2.2.2 rfl rfl⟩

/-- C8. A Register request that passes validation and whose mail dispatch succeeds persists
nothing: the document it builds holds the email and the defaults of the schema but neither
`firstName`, `lastName`, `password` nor `confirmOTP`, and no `phone`, so the save is rejected by
the `required` validator of `phone`; the response is that error and the collection is
unchanged. -/
theorem register_save_rejected (env : Env) (store : List User) (req : RegisterRequest)
    (hvalid : register.validationResult store req = [])
    (hmail : env.mailerSend env.confirmEmailsFrom (env.escape req.email) "Confirm Account"
      (confirmHtml (env.randomNumber 4)) = true) :
    (register env store req).response = some (.ErrorResponse (.validation ["phone"])) ∧
    (register env store req).store = store ∧
    (register env store req).trace =
      [.mailerSend env.confirmEmailsFrom (env.escape req.email) "Confirm Account"
          (confirmHtml (env.randomNumber 4)),
        .save { _id := env.newObjectId,
                fields := [("email", .str (env.escape req.email)), ("profile_pic", .str "0"),
                  ("status", .str "1")] }] := by
  rw [register_outcome]
  simp [hvalid, hmail, register_newUser_fields]

/-- Witness of C8: the example scenario of the spec (§8), Jane Doe registering on an empty
collection with a working mail transport. -/
theorem register_save_rejected_witness :
    (register sampleEnv [] janeRegistration).response =
      some (.ErrorResponse (.validation ["phone"])) ∧
    (register sampleEnv [] janeRegistration).store = [] ∧
    (register sampleEnv [] janeRegistration).trace =
      [.mailerSend "admin@example.com" "jane@x.com" "Confirm Account"
          "<p>Please Confirm your Account.</p><p>OTP: 4821</p>",
        .save { _id := ⟨"650000000000000000000001"⟩,
                fields := [("email", .str "jane@x.com"), ("profile_pic", .str "0"),
                  ("status", .str "1")] }] :=
  register_save_rejected sampleEnv [] janeRegistration rfl rfl

/-! ## VerifyConfirm and ResendConfirmOtp -/

/-- Neither `isConfirmed` nor `confirmOTP` is a path of `UserSchema`: on every document both read
as undefined. -/
theorem get_confirmation_state (u : User) :
    u.get "isConfirmed" = none ∧ u.get "confirmOTP" = none := ⟨rfl, rfl⟩

/-- Assigning `isConfirmed` or `confirmOTP` on a document instance changes nothing that `save`
writes. -/
theorem set_confirmation_state (d : Document) (v : JSVal) :
    d.set "isConfirmed" v = d ∧ d.set "confirmOTP" v = d := ⟨rfl, rfl⟩

/-- The two ways a valid VerifyConfirm ends. -/
theorem verifyConfirm_outcome (env : Env) (store : List User) (req : VerifyConfirmRequest)
    (hvalid : req.errors = []) :
    verifyConfirm env store req =
      { response := some (.unauthorizedResponse
          (if (UserModel.findOne store "email" (env.escape req.email)).isSome then
            "Otp does not match" else "Specified email not found.")),
        store := store,
        trace := [] } := by
  unfold verifyConfirm
  simp only []
  cases hf : UserModel.findOne store "email" (env.escape req.email) with
  | none => simp [hvalid]
  | some user =>
    simp only [hvalid, (get_confirmation_state user.doc).1,
      (get_confirmation_state user.doc).2]
    simp [truthy, looseEqStr]

/-- C5. A valid VerifyConfirm never answers success.  When a User with the email exists the
answer is Unauthorized "Otp does not match", whatever that document holds under `confirmOTP` and
`isConfirmed` and whatever otp is submitted; when none exists it is Unauthorized "Specified email
not found.".  No update is issued and the collection is unchanged. -/
theorem verifyConfirm_never_confirms (env : Env) (store : List User)
    (req : VerifyConfirmRequest) (hvalid : req.errors = []) :
    (∀ user, UserModel.findOne store "email" (env.escape req.email) = some user →
      verifyConfirm env store req =
        { response := some (.unauthorizedResponse "Otp does not match"),
          store := store,
          trace := [] }) ∧
    (UserModel.findOne store "email" (env.escape req.email) = none →
      verifyConfirm env store req =
        { response := some (.unauthorizedResponse "Specified email not found."),
          store := store,
          trace := [] }) := by
  constructor
  · intro user hfound
    rw [verifyConfirm_outcome env store req hvalid, hfound]
    rfl
  · intro hnone
    rw [verifyConfirm_outcome env store req hvalid, hnone]
    rfl

/-- Witness of C5: the stored document of `jane@x.com` holds "4821" under `confirmOTP`, and
submitting "4821" is answered "Otp does not match". -/
theorem verifyConfirm_never_confirms_witness :
    janePending.fields.lookup "confirmOTP" = some (.str "4821") ∧
    verifyConfirm sampleEnv [janePending]
        { email := "jane@x.com", otp := "4821", errors := [] } =
      { response := some (.unauthorizedResponse "Otp does not match"),
        store := [janePending],
        trace := [] } :=
  ⟨rfl, (verifyConfirm_never_confirms sampleEnv [janePending]
    { email := "jane@x.com", otp := "4821", errors := [] } rfl).1
    { doc := janePending, isNew := false, modified := [], castErrors := [] } rfl⟩

/-- Saving a loaded document that has no modified path writes nothing. -/
theorem save_unmodified (w : Bool) (store : List User) (u : User) :
    (Document.save w store { doc := u, isNew := false, modified := [], castErrors := [] }).2 =
      store := by
  unfold Document.save
  split <;> simp

/-- The outcome of a valid ResendConfirmOtp for a known email. -/
theorem resend_outcome (env : Env) (store : List User) (req : ResendConfirmOtpRequest)
    (user : Document) (hvalid : req.errors = [])
    (hfound : UserModel.findOne store "email" (env.escape req.email) = some user) :
    resendConfirmOtp env store req =
      if env.mailerSend env.confirmEmailsFrom (env.escape req.email) "Confirm Account"
          (confirmHtml (env.randomNumber 4)) then
        { response :=
            match (user.save env.writeOk store).1 with
            | some err => some (.ErrorResponse err)
            | none => some (.successResponse "Confirm otp sent."),
          store := store,
          trace := [.mailerSend env.confirmEmailsFrom (env.escape req.email) "Confirm Account"
            (confirmHtml (env.randomNumber 4)), .save user.doc] }
      else
        { response := none,
          store := store,
          trace := [.mailerSend env.confirmEmailsFrom (env.escape req.email) "Confirm Account"
            (confirmHtml (env.randomNumber 4))] } := by
  obtain ⟨-, -, hu⟩ := findOne_some hfound
  have hs : (user.save env.writeOk store).2 = store := by
    rw [hu]
    exact save_unmodified _ _ _
  unfold resendConfirmOtp
  simp only [hvalid, hfound, (get_confirmation_state user.doc).1,
    (set_confirmation_state user _).1, (set_confirmation_state user _).2]
  rcases hsv : user.save env.writeOk store with ⟨e, st⟩
  rw [hsv] at hs
  simp only at hs
  subst hs
  cases e <;> simp [truthy]

/-- ResendConfirmOtp never changes the collection. -/
theorem resend_store (env : Env) (store : List User) (req : ResendConfirmOtpRequest) :
    (resendConfirmOtp env store req).store = store := by
  by_cases hv : req.errors = []
  · cases hf : UserModel.findOne store "email" (env.escape req.email) with
    | none => simp [resendConfirmOtp, hv, hf]
    | some user =>
      rw [resend_outcome env store req user hv hf]
      split <;> rfl
  · simp [resendConfirmOtp, hv]

/-- ResendConfirmOtp answers "Confirm otp sent." only for a known email and after the mail was
dispatched. -/
theorem resend_sent (env : Env) (store : List User) (req : ResendConfirmOtpRequest)
    (hsent : (resendConfirmOtp env store req).response =
      some (.successResponse "Confirm otp sent.")) :
    ∃ user, UserModel.findOne store "email" (env.escape req.email) = some user ∧
      Effect.mailerSend env.confirmEmailsFrom (env.escape req.email) "Confirm Account"
        (confirmHtml (env.randomNumber 4)) ∈ (resendConfirmOtp env store req).trace := by
  by_cases hv : req.errors = []
  · cases hf : UserModel.findOne store "email" (env.escape req.email) with
    | none => simp [resendConfirmOtp, hv, hf] at hsent
    | some user =>
      refine ⟨user, rfl, ?_⟩
      rw [resend_outcome env store req user hv hf] at hsent ⊢
      split at hsent
      · next hm => simp [hm]
      · simp at hsent
  · simp [resendConfirmOtp, hv] at hsent

/-- C6. When ResendConfirmOtp answers "Confirm otp sent.", having generated and mailed an OTP,
the collection is exactly as before (the OTP is stored nowhere), and a VerifyConfirm that submits
that very OTP for the same email right afterwards is answered Unauthorized "Otp does not
match". -/
theorem resend_then_verify_rejected (env : Env) (store : List User)
    (req : ResendConfirmOtpRequest)
    (hsent : (resendConfirmOtp env store req).response =
      some (.successResponse "Confirm otp sent.")) :
    Effect.mailerSend env.confirmEmailsFrom (env.escape req.email) "Confirm Account"
        (confirmHtml (env.randomNumber 4)) ∈ (resendConfirmOtp env store req).trace ∧
    (resendConfirmOtp env store req).store = store ∧
    verifyConfirm env (resendConfirmOtp env store req).store
        { email := req.email, otp := toString (env.randomNumber 4), errors := [] } =
      { response := some (.unauthorizedResponse "Otp does not match"),
        store := store,
        trace := [] } := by
  obtain ⟨user, hf, hmail⟩ := resend_sent env store req hsent
  refine ⟨hmail, resend_store env store req, ?_⟩
  rw [resend_store, verifyConfirm_outcome env store
    { email := req.email, otp := toString (env.randomNumber 4), errors := [] } rfl, hf]
  rfl

/-- Witness of C6: ResendConfirmOtp mails OTP 4821 to `ravi@x.com` and answers "Confirm otp
sent."; VerifyConfirm with "4821" is then answered "Otp does not match". -/
theorem resend_then_verify_rejected_witness :
    resendConfirmOtp sampleEnv [ravi] { email := "ravi@x.com", errors := [] } =
      { response := some (.successResponse "Confirm otp sent."),
        store := [ravi],
        trace := [.mailerSend "admin@example.com" "ravi@x.com" "Confirm Account"
          "<p>Please Confirm your Account.</p><p>OTP: 4821</p>", .save ravi] } ∧
    verifyConfirm sampleEnv [ravi] { email := "ravi@x.com", otp := "4821", errors := [] } =
      { response := some (.unauthorizedResponse "Otp does not match"),
        store := [ravi],
        trace := [] } :=
  ⟨rfl, (resend_then_verify_rejected sampleEnv [ravi]
    { email := "ravi@x.com", errors := [] } rfl).2.2⟩

/-! ## The token of Login -/

/-- C9. In the provisioning branch of Login (phone unmatched, Company matched, save succeeded)
the response data is `_id`, `phone`, `status`, `token` and the token is signed over `_id`,
`phone`, `status`: `company_id` is in neither, although the stored user has the id of the
matched Company as `company_id`. -/
theorem login_provision_claims (env : Env) (store : List User) (companies : List Company)
    (req : LoginRequest) (company : Company)
    (hvalid : req.errors = [])
    (hnouser : UserModel.findOne store "phone" (env.escape req.phone) = none)
    (hcompany : CompanyModel.findOne companies req.unique_id = some company)
    (hsave : ((login.newUser env (env.escape req.phone) company).save env.writeOk store).1
      = none) :
    ∃ (u : User) (payload : Obj),
      (login env store companies req).store = store ++ [u] ∧
      u.get "company_id" = some (.oid company._id) ∧
      payload = [("_id", .oid u._id), ("phone", .str (env.escape req.phone)),
        ("status", .str "active")] ∧
      payload.lookup "company_id" = none ∧
      (login env store companies req).response =
        some (.successResponseWithData "Registration Success."
          (payload ++ [("token", .str (env.jwtSign payload env.JWT_SECRET none))])) ∧
      (login env store companies req).trace =
        [.save u, .jwtSign payload env.JWT_SECRET none] := by
  have hout := login_provision_outcome env store companies req company hvalid hnouser
    hcompany hsave
  refine ⟨(login.newUser env (env.escape req.phone) company).doc, _, ?_, rfl, rfl, rfl,
    ?_, ?_⟩
  · rw [hout]
  · rw [hout]; rfl
  · rw [hout]; rfl

/-- Witness of C9: the first login of phone 9876543210 with the join code of `acme`. -/
theorem login_provision_claims_witness :
    (login sampleEnv [] [acme]
        { phone := "9876543210", unique_id := "ACME", errors := [] }).response =
      some (.successResponseWithData "Registration Success."
        [("_id", .oid ⟨"650000000000000000000001"⟩), ("phone", .str "9876543210"),
         ("status", .str "active"), ("token", .str "signed-with-s3cret")]) := by
  obtain ⟨u, payload, hstore, -, hpayload, -, hresponse, -⟩ :=
    login_provision_claims sampleEnv [] [acme]
      { phone := "9876543210", unique_id := "ACME", errors := [] } acme rfl rfl rfl rfl
  have hu : u = (login.newUser sampleEnv "9876543210" acme).doc := by
    have h : [u] = [(login.newUser sampleEnv "9876543210" acme).doc] := hstore.symm
    exact List.head_eq_of_cons_eq h
  rw [hresponse, hpayload, hu]
  rfl

/-- C10. Every `jwt.sign` call Login makes, in either branch, passes the configured secret and
no options at all: the `expiresIn` built from `JWT_TIMEOUT_DURATION` is never handed to the
signing operation. -/
theorem login_sign_without_options (env : Env) (store : List User) (companies : List Company)
    (req : LoginRequest) (payload : Obj) (secret : String) (options : Option Obj)
    (hcall : Effect.jwtSign payload secret options ∈ (login env store companies req).trace) :
    secret = env.JWT_SECRET ∧ options = none := by
  unfold login at hcall
  simp only [] at hcall
  repeat' split at hcall
  all_goals simp at hcall
  all_goals
    obtain ⟨-, rfl, rfl⟩ := hcall
    exact ⟨rfl, rfl⟩

/-- Witness of C10: the login of `asha` (existing active user) and a first login (provisioning)
each sign with the configured secret and without options; the call that would carry
`expiresIn` is made in neither. -/
theorem login_sign_without_options_witness :
    (Effect.jwtSign [("_id", .oid ⟨"64000000000000000000000a"⟩),
        ("company_id", .oid ⟨"63000000000000000000000c"⟩),
        ("phone", .str "9876543210")] "s3cret" none ∈ (login sampleEnv [asha] [acme]
      { phone := "9876543210", unique_id := "ACME", errors := [] }).trace ∧
      "s3cret" = sampleEnv.JWT_SECRET ∧ (none : Option Obj) = none) ∧
    (Effect.jwtSign [("_id", .oid ⟨"650000000000000000000001"⟩), ("phone", .str "9876543210"),
        ("status", .str "active")] "s3cret" none ∈ (login sampleEnv [] [acme]
      { phone := "9876543210", unique_id := "ACME", errors := [] }).trace ∧
      "s3cret" = sampleEnv.JWT_SECRET ∧ (none : Option Obj) = none) :=
  ⟨⟨by decide, login_sign_without_options sampleEnv [asha] [acme]
      { phone := "9876543210", unique_id := "ACME", errors := [] } _ _ _
      (by decide : Effect.jwtSign [("_id", .oid ⟨"64000000000000000000000a"⟩),
        ("company_id", .oid ⟨"63000000000000000000000c"⟩),
        ("phone", .str "9876543210")] "s3cret" none ∈ (login sampleEnv [asha] [acme]
          { phone := "9876543210", unique_id := "ACME", errors := [] }).trace)⟩,
   ⟨by decide, login_sign_without_options sampleEnv [] [acme]
      { phone := "9876543210", unique_id := "ACME", errors := [] } _ _ _
      (by decide : Effect.jwtSign [("_id", .oid ⟨"650000000000000000000001"⟩),
        ("phone", .str "9876543210"), ("status", .str "active")] "s3cret" none ∈
          (login sampleEnv [] [acme]
            { phone := "9876543210", unique_id := "ACME", errors := [] }).trace)⟩⟩

end BookManager
